import Mathlib

/-!
# WeatherApp (`src/script.js`): a shallow embedding and its verified properties

The single class `WeatherApp` of `script.js` is embedded as pure functions over an explicit
application state.  Conventions of the embedding:

* A JavaScript Number is the rational it denotes (`ℚ`), with `none` standing for `NaN`.
  The numerals of the provider's body become Numbers by rounding to the nearest IEEE 754
  double (`toDouble`), and the product `speed * 3.6` and the quotient `visibility / 1000` of
  the rendering path are rounded the same way (`jsMul`, `jsDiv`).  `Math.round`, `parseInt`
  and `toFixed(1)` are exact functions of their argument.  Three things are not modelled,
  and the theorems about printed numbers carry bounds that keep clear of them: an integral
  Number is printed in plain decimal notation, which is what JavaScript prints below `2^53`
  (from `10^21` it switches to exponent notation, as does `toFixed`); infinities are absent;
  and the two conversion formulas of the unit toggle are computed exactly, which agrees with
  their double evaluation on whole-number readings of magnitude up to `10^9`, where the
  rounding error stays far below the distance `1/10` of the exact value to a tie.
* The DOM is a record of the slots the script reads or writes: `textContent` / `innerHTML`
  of each element it looks up and, for the three elements whose `show` class it flips, a
  boolean saying whether the class is present.  Focus changes, the date line and the 300 ms
  transition timer of `toggleTheme` carry no state the script reads back and are left out.
* The `async` method `handleSearch` is split at its only suspension point (`await` of the
  provider reply) into the part that runs on submission (`handleSearchSubmit`) and the part
  that runs when the reply arrives (`handleSearchSettle`); any other handler may run in
  between, so the second part is stated for an arbitrary state.
-/

namespace WeatherApp

/-! ## JavaScript built-ins used by the script -/

/-- Models `Math.round`: the nearest integer, ties towards `+∞`. -/
def mathRound (x : ℚ) : ℤ := ⌊x + 1 / 2⌋

/-- Nearest integer, ties to the even one. -/
def roundHalfEven (x : ℚ) : ℤ :=
  if x - (⌊x⌋ : ℚ) < 1 / 2 then ⌊x⌋
  else if 1 / 2 < x - (⌊x⌋ : ℚ) then ⌊x⌋ + 1
  else if ⌊x⌋ % 2 = 0 then ⌊x⌋ else ⌊x⌋ + 1

/-- The Number nearest to `x`: IEEE 754 binary64 rounding to nearest, ties to even, with a
significand of 53 bits and gradual underflow below `2^(-1022)`.  Overflow to an infinity is
not modelled. -/
def toDouble (x : ℚ) : ℚ :=
  if x = 0 then 0
  else (roundHalfEven (x / 2 ^ (max (Int.log 2 |x|) (-1022) - 52)) : ℚ)
    * 2 ^ (max (Int.log 2 |x|) (-1022) - 52)

/-- The product `a * b` of two Numbers. -/
def jsMul (a b : ℚ) : ℚ := toDouble (a * b)

/-- The quotient `a / b` of two Numbers. -/
def jsDiv (a b : ℚ) : ℚ := toDouble (a / b)

/-- The character of a decimal digit `d < 10`. -/
def digitChar (d : Nat) : Char := Char.ofNat (48 + d)

/-- Decimal digits of `n`, most significant first (`fuel` bounds the number of digits). -/
def decimalDigits : Nat → Nat → List Char
  | 0, _ => []
  | fuel + 1, n =>
    if n < 10 then [digitChar n] else decimalDigits fuel (n / 10) ++ [digitChar (n % 10)]

/-- Decimal numeral of a natural number. -/
def natChars (n : Nat) : List Char := decimalDigits (n + 1) n

/-- Models `Number::toString` on an integral value: the decimal numeral, `-` first when negative. -/
def intChars : ℤ → List Char
  | Int.ofNat n => natChars n
  | Int.negSucc n => '-' :: natChars (n + 1)

/-- Template-literal rendering of the result of `Math.round` (`none` is `NaN`): the plain
decimal numeral, which is what JavaScript prints for an integral Number below `2^53`. -/
def numberToString : Option ℤ → String
  | some z => String.mk (intChars z)
  | none => "NaN"

/-- Lifts `Math.round` to possibly-`NaN` arguments. -/
def mathRoundN : Option ℚ → Option ℤ
  | some x => some (mathRound x)
  | none => none

/-- ASCII decimal digit test (`\d` of a non-unicode regular expression, digits of `parseInt`). -/
def isDigit (c : Char) : Bool := decide (48 ≤ c.toNat) && decide (c.toNat ≤ 57)

/-- Value of a hexadecimal digit, if the character is one. -/
def hexVal (c : Char) : Option Nat :=
  if 48 ≤ c.toNat ∧ c.toNat ≤ 57 then some (c.toNat - 48)
  else if 97 ≤ c.toNat ∧ c.toNat ≤ 102 then some (c.toNat - 87)
  else if 65 ≤ c.toNat ∧ c.toNat ≤ 70 then some (c.toNat - 55)
  else none

/-- White space and line terminators in the sense of ECMAScript (`trim`, `parseInt`). -/
def isJsWhitespace (c : Char) : Bool :=
  let n := c.toNat
  decide (n = 9) || decide (n = 10) || decide (n = 11) || decide (n = 12) || decide (n = 13)
    || decide (n = 32) || decide (n = 160) || decide (n = 5760)
    || (decide (8192 ≤ n) && decide (n ≤ 8202))
    || decide (n = 8232) || decide (n = 8233) || decide (n = 8239) || decide (n = 8287)
    || decide (n = 12288) || decide (n = 65279)

/-- Models `String.prototype.trim` on the characters of a string. -/
def trimChars (s : List Char) : List Char :=
  ((s.dropWhile isJsWhitespace).reverse.dropWhile isJsWhitespace).reverse

/-- Models `String.prototype.trim`. -/
def jsTrim (s : String) : String := String.mk (trimChars s.data)

/-- Value of a run of decimal digits. -/
def decimalValue (ds : List Char) : Nat := ds.foldl (fun acc c => acc * 10 + (c.toNat - 48)) 0

/-- Value of a run of hexadecimal digits. -/
def hexValue (ds : List Char) : Nat := ds.foldl (fun acc c => acc * 16 + (hexVal c).getD 0) 0

/-- Does the text start with `0x` or `0X`? -/
def startsWithHexMarker : List Char → Bool
  | '0' :: c :: _ => c == 'x' || c == 'X'
  | _ => false

/-- The unsigned part of `parseInt` (radix argument absent): radix 16 after a `0x` prefix,
radix 10 otherwise; the longest prefix of digits is read, and an empty one gives `NaN`. -/
def parseMagnitude (s : List Char) : Option Nat :=
  if startsWithHexMarker s then
    match (s.drop 2).takeWhile (fun c => (hexVal c).isSome) with
    | [] => none
    | ds => some (hexValue ds)
  else
    match s.takeWhile isDigit with
    | [] => none
    | ds => some (decimalValue ds)

/-- Models `parseInt(text)` on the characters of `text`: leading white space is skipped, one sign is
accepted, then the magnitude is read.  `none` is `NaN`. -/
def parseIntChars (s : List Char) : Option ℤ :=
  match s.dropWhile isJsWhitespace with
  | '-' :: rest => (parseMagnitude rest).map (fun n => -(n : ℤ))
  | '+' :: rest => (parseMagnitude rest).map (fun n => (n : ℤ))
  | rest => (parseMagnitude rest).map (fun n => (n : ℤ))

/-- Models `parseInt(text)`; the integer read is the Number returned as long as it is below
`2^53`. -/
def parseInt (s : String) : Option ℤ := parseIntChars s.data

/-- First capture of `text.match(/(-?\d+)/)`: the leftmost occurrence of an optional minus
sign followed by a greedy, non-empty run of digits; `none` when there is no match. -/
def matchSignedDigits : List Char → Option (List Char)
  | [] => none
  | c :: rest =>
    if c = '-' then
      match rest.takeWhile isDigit with
      | [] => matchSignedDigits rest
      | ds => some ('-' :: ds)
    else if isDigit c then some (c :: rest.takeWhile isDigit)
    else matchSignedDigits rest

/-- Models `Number.prototype.toFixed(1)` on a Number `x` below `10^21` in magnitude: with `n`
the integer closest to `10·|x|` (the larger one on a tie), the numeral of `n` with a point
before its last digit, `-` first when `x < 0`.  The rounding is that of the Number itself,
so the caller passes the double it has computed. -/
def toFixed1 : Option ℚ → String
  | none => "NaN"
  | some x =>
    let n : Nat := (mathRound (10 * |x|)).toNat
    let body := natChars (n / 10) ++ '.' :: [digitChar (n % 10)]
    String.mk (if x < 0 then '-' :: body else body)

/-! ## Application state -/

/-- A JavaScript exception: the `name` and `message` of the thrown error object. -/
structure JsError where
  name : String
  message : String
  deriving DecidableEq, Repr

/-- What a property read on `iconMap` can produce: nothing, one of the literal glyph strings,
or a member inherited from `Object.prototype` (named by its property key). -/
inductive JsValue where
  | undefined
  | string (s : String)
  | inherited (key : String)
  deriving DecidableEq, Repr

/-- The page as the script sees it: the slots of the elements found by `initializeElements`,
the `data-theme` attribute of the root element and the `theme` entry of `localStorage`. -/
structure Document where
  /-- Attribute `value` of `#locationInput`. -/
  locationInput : String
  locationName : String
  temperature : String
  /-- Attribute `innerHTML` of `#weatherIcon`: `none` is the markup shipped with the page,
  `some v` is `<span>v</span>` with `v` interpolated by the template literal. -/
  weatherIcon : Option JsValue
  description : String
  feelsLike : String
  humidity : String
  windSpeed : String
  pressure : String
  visibility : String
  /-- Element `#weatherDisplay` carries the class `show`. -/
  weatherDisplayShown : Bool
  /-- Element `#loading` carries the class `show`. -/
  loadingShown : Bool
  /-- Element `#modalOverlay` carries the class `show`. -/
  modalShown : Bool
  themeIcon : String
  themeText : String
  /-- Attribute `innerHTML` of `#tempToggle`. -/
  tempToggle : String
  /-- Attribute `data-theme` of `document.documentElement`. -/
  dataTheme : Option String
  /-- Result of `localStorage.getItem('theme')`. -/
  storedTheme : Option String
  deriving DecidableEq, Repr

/-- The fields of a `WeatherApp` instance together with the page it drives. -/
structure App where
  API_KEY : String
  API_URL : String
  currentTheme : String
  isMetric : Bool
  doc : Document
  deriving DecidableEq, Repr

/-! ## Theme -/

/-- Lines 99-107. -/
def updateThemeToggle (app : App) : App :=
  if app.currentTheme = "dark" then
    { app with doc := { app.doc with themeIcon := "☀️", themeText := "Light Mode" } }
  else
    { app with doc := { app.doc with themeIcon := "🌙", themeText := "Dark Mode" } }

/-- Lines 81-84. -/
def initializeTheme (app : App) : App :=
  updateThemeToggle { app with doc := { app.doc with dataTheme := some app.currentTheme } }

/-- Lines 86-97. -/
def toggleTheme (app : App) : App :=
  let theme := if app.currentTheme = "light" then "dark" else "light"
  updateThemeToggle
    { app with
      currentTheme := theme
      doc := { app.doc with dataTheme := some theme, storedTheme := some theme } }

/-- Lines 10-19 and 21-52, run on a freshly loaded page: `getItem('theme') || 'light'` takes
the stored string unless it is absent or empty. -/
def constructor (page : Document) : App :=
  let theme :=
    match page.storedTheme with
    | some t => if t = "" then "light" else t
    | none => "light"
  initializeTheme
    { API_KEY := ""
      API_URL := "https://api.openweathermap.org/data/2.5/weather"
      currentTheme := theme
      isMetric := true
      doc := page }

/-! ## Unit toggle -/

/-- The conversion of lines 118-120 and 128-130, applied to the parsed integer; `toMetric` is
the value of `this.isMetric` after the flip. -/
def convertTemp (toMetric : Bool) (v : ℤ) : ℤ :=
  if toMetric then mathRound (((v : ℚ) - 32) * 5 / 9) else mathRound ((v : ℚ) * 9 / 5 + 32)

/-- The unit letter `this.isMetric ? 'C' : 'F'`. -/
def unitLetter (isMetric : Bool) : String := if isMetric then "C" else "F"

/-- Lines 109-135. -/
def toggleTemperatureUnit (app : App) : App :=
  let isMetric := !app.isMetric
  let app := { app with
    isMetric := isMetric
    doc := { app.doc with tempToggle := if isMetric then "°C / °F" else "°F / °C" } }
  if app.doc.weatherDisplayShown then
    match parseInt app.doc.temperature with
    | none => app
    | some tempValue =>
      let newTemp := convertTemp isMetric tempValue
      let app := { app with doc := { app.doc with
        temperature := numberToString (some newTemp) ++ "°" ++ unitLetter isMetric } }
      match matchSignedDigits app.doc.feelsLike.data with
      | none => app
      | some capture =>
        let newFeelsLike := (parseIntChars capture).map (convertTemp isMetric)
        { app with doc := { app.doc with
          feelsLike := "Feels like " ++ numberToString newFeelsLike ++ "°" ++ unitLetter isMetric } }
  else app

/-! ## Provider data -/

/-- Member `sys` of the provider's JSON body. -/
structure SysBlock where
  country : String
  deriving DecidableEq, Repr

/-- Member `main` of the provider's JSON body.  A numeric member that enters arithmetic is
the rational its numeral denotes (`none`: not a number), turned into a Number by `toDouble`
where the script reads it; members that are only interpolated are carried as the text the
template literal produces for them. -/
structure MainBlock where
  temp : Option ℚ
  feels_like : Option ℚ
  humidity : String
  pressure : String
  deriving DecidableEq, Repr

/-- One element of the array `weather` of the provider's JSON body. -/
structure WeatherEntry where
  main : String
  description : String
  icon : String
  deriving DecidableEq, Repr

/-- Member `wind` of the provider's JSON body. -/
structure WindBlock where
  speed : Option ℚ
  deriving DecidableEq, Repr

/-- The JSON object `response.json()` resolves to.  A member object that is absent is `none`:
reading a property of it throws a `TypeError`. -/
structure ProviderData where
  name : String
  sys : Option SysBlock
  main : Option MainBlock
  weather : Option (List WeatherEntry)
  wind : Option WindBlock
  visibility : Option ℚ
  deriving DecidableEq, Repr

/-- The `TypeError` thrown when `key` is read from `undefined`. -/
def typeError (key : String) : JsError :=
  { name := "TypeError", message := "Cannot read properties of undefined (reading '" ++ key ++ "')" }

/-! ## Presentation helpers -/

/-- Lines 244-247. -/
def showLoading (app : App) : App :=
  { app with doc := { app.doc with loadingShown := true, weatherDisplayShown := false } }

/-- Lines 249-251. -/
def hideLoading (app : App) : App :=
  { app with doc := { app.doc with loadingShown := false } }

/-- Lines 253-257. -/
def showModal (app : App) : App :=
  { app with doc := { app.doc with modalShown := true } }

/-- Lines 259-262. -/
def closeModal (app : App) : App :=
  { app with doc := { app.doc with modalShown := false } }

/-- Lines 264-268; the message only reaches the console. -/
def showError (_message : String) (app : App) : App := showModal app

/-! ## Weather icon -/

/-- Own properties of the object literal `iconMap` (lines 222-238). -/
def iconMapOwn (key : String) : Option String :=
  if key = "Clear" then some "☀️"
  else if key = "Clouds" then some "☁️"
  else if key = "Rain" then some "🌧️"
  else if key = "Drizzle" then some "🌦️"
  else if key = "Thunderstorm" then some "⛈️"
  else if key = "Snow" then some "❄️"
  else if key = "Mist" then some "🌫️"
  else if key = "Smoke" then some "🌫️"
  else if key = "Haze" then some "🌫️"
  else if key = "Dust" then some "🌫️"
  else if key = "Fog" then some "🌫️"
  else if key = "Sand" then some "🌫️"
  else if key = "Ash" then some "🌫️"
  else if key = "Squall" then some "💨"
  else if key = "Tornado" then some "🌪️"
  else none

/-- Property keys every object literal inherits from `Object.prototype`; each of them holds a
function or an object, hence a truthy value. -/
def objectPrototypeKeys : List String :=
  ["constructor", "hasOwnProperty", "isPrototypeOf", "propertyIsEnumerable", "toLocaleString",
   "toString", "valueOf", "__proto__", "__defineGetter__", "__defineSetter__",
   "__lookupGetter__", "__lookupSetter__"]

/-- The property read `iconMap[weatherMain]`: an own property first, then the prototype. -/
def iconMapGet (weatherMain : String) : JsValue :=
  match iconMapOwn weatherMain with
  | some glyph => JsValue.string glyph
  | none =>
    if weatherMain ∈ objectPrototypeKeys then JsValue.inherited weatherMain
    else JsValue.undefined

/-- The expression `v || fallback`: `v` when truthy, else the fallback string. -/
def jsOr (v : JsValue) (fallback : String) : JsValue :=
  match v with
  | JsValue.undefined => JsValue.string fallback
  | JsValue.string s => if s = "" then JsValue.string fallback else JsValue.string s
  | JsValue.inherited key => JsValue.inherited key

/-- The constant `icon` of line 240. -/
def chosenIcon (weatherMain : String) : JsValue := jsOr (iconMapGet weatherMain) "🌤️"

/-- Lines 221-242. -/
def updateWeatherIcon (weatherMain _iconCode : String) (app : App) : App :=
  { app with doc := { app.doc with weatherIcon := some (chosenIcon weatherMain) } }

/-! ## Rendering a provider reply -/

/-- Lines 193-219.  The result is the state when the method returns, or when it throws
together with the exception: writes made before a throw stay in place. -/
def displayWeatherData (data : ProviderData) (app : App) : App × Option JsError :=
  match data.sys with
  | none => (app, some (typeError "country"))
  | some sys =>
    let app := { app with doc := { app.doc with locationName := data.name ++ ", " ++ sys.country } }
    match data.main with
    | none => (app, some (typeError "temp"))
    | some main =>
      let tempValue := mathRoundN (main.temp.map toDouble)
      let feelsLikeValue := mathRoundN (main.feels_like.map toDouble)
      let app := { app with doc := { app.doc with
        temperature := numberToString tempValue ++ "°" ++ unitLetter app.isMetric } }
      match data.weather with
      | none => (app, some (typeError "0"))
      | some [] => (app, some (typeError "description"))
      | some (w :: _) =>
        let app := { app with doc := { app.doc with
          description := w.description
          feelsLike := "Feels like " ++ numberToString feelsLikeValue ++ "°" ++ unitLetter app.isMetric } }
        let app := updateWeatherIcon w.main w.icon app
        let app := { app with doc := { app.doc with humidity := main.humidity ++ "%" } }
        match data.wind with
        | none => (app, some (typeError "speed"))
        | some wind =>
          let app := { app with doc := { app.doc with
            windSpeed := numberToString
              (mathRoundN (wind.speed.map (fun v => jsMul (toDouble v) (toDouble 3.6)))) ++ " km/h"
            pressure := main.pressure ++ " hPa"
            visibility := toFixed1 (data.visibility.map (fun v => jsDiv (toDouble v) 1000)) ++ " km"
            weatherDisplayShown := true
            locationInput := "" } }
          (app, none)

/-! ## Talking to the provider -/

/-- The query the script sends: the three parameters of the URL built on line 177. -/
structure Request where
  /-- Parameter `q`, before `encodeURIComponent`. -/
  location : String
  appid : String
  units : String
  deriving DecidableEq, Repr

/-- The `Response` object `fetch` resolves to: the two members the script inspects and the
outcome of `response.json()` (the parsed body, or the exception of a body that does not
parse). -/
structure Response where
  ok : Bool
  status : Nat
  json : Except JsError ProviderData

/-- Outcome of `fetch(url)`: rejected with an exception (no answer from the network) or
resolved with a response. -/
abbrev FetchReply := Except JsError Response

/-- Lines 176-179: the request issued by `fetchWeatherData(location)`. -/
def fetchWeatherDataRequest (app : App) (location : String) : Request :=
  { location := location
    appid := app.API_KEY
    units := if app.isMetric then "metric" else "imperial" }

/-- Lines 179-190: what `fetchWeatherData` returns or throws once `fetch` has settled. -/
def fetchWeatherData (reply : FetchReply) : Except JsError ProviderData :=
  match reply with
  | Except.error e => Except.error e
  | Except.ok response =>
    if !response.ok then
      if response.status = 404 then
        Except.error { name := "Error", message := "Location not found" }
      else if response.status = 401 then
        Except.error { name := "Error", message := "Invalid API key" }
      else
        Except.error { name := "Error", message := "Failed to fetch weather data" }
    else response.json

/-! ## Search -/

/-- Where `handleSearch` stands after its synchronous part: it has returned, or it is
suspended on the request it has just issued. -/
inductive SearchStep where
  | finished (app : App)
  | awaiting (app : App) (request : Request)

/-- Lines 148-165, up to the suspension on `await this.fetchWeatherData(location)`. -/
def handleSearchSubmit (app : App) : SearchStep :=
  let location := jsTrim app.doc.locationInput
  if location = "" then
    SearchStep.finished (showError "Please enter a location" app)
  else if app.API_KEY = "your_api_key_here" then
    SearchStep.finished (showError "Please add your OpenWeatherMap API key" app)
  else
    let app := showLoading app
    SearchStep.awaiting app (fetchWeatherDataRequest app location)

/-- Lines 165-172, from the moment the awaited call settles. -/
def handleSearchSettle (app : App) (reply : FetchReply) : App :=
  match fetchWeatherData reply with
  | Except.error _ => showModal (hideLoading app)
  | Except.ok weatherData =>
    match displayWeatherData weatherData app with
    | (app, none) => hideLoading app
    | (app, some _) => showModal (hideLoading app)

/-- The two parts of `handleSearch` (lines 148-173) run back to back: what the method does
when no other handler runs while the request is outstanding.  Statements about overlapping
searches go through `handleSearchSettle` and `run` instead. -/
def handleSearch (app : App) (reply : FetchReply) : App :=
  match handleSearchSubmit app with
  | SearchStep.finished app => app
  | SearchStep.awaiting app _ => handleSearchSettle app reply

/-- Did this call of `handleSearch` reach `fetchWeatherData`? -/
def SearchStep.contactsProvider : SearchStep → Bool
  | SearchStep.finished _ => false
  | SearchStep.awaiting _ _ => true

/-- The state in which the synchronous part of `handleSearch` leaves the application. -/
def SearchStep.app : SearchStep → App
  | SearchStep.finished app => app
  | SearchStep.awaiting app _ => app

/-! ## The event loop -/

/-- The application together with the requests that are still outstanding, oldest first. -/
structure World where
  app : App
  pending : List Request

/-- The events of a session: the user types a query and submits it, the oldest outstanding
request settles, the user clicks the unit toggle. -/
inductive Event where
  | submitSearch (input : String)
  | fetchResolves (reply : FetchReply)
  | toggleUnit

/-- One turn of the event loop. -/
def step (w : World) : Event → World
  | Event.submitSearch input =>
    match handleSearchSubmit { w.app with doc := { w.app.doc with locationInput := input } } with
    | SearchStep.finished app => { w with app := app }
    | SearchStep.awaiting app request => { app := app, pending := w.pending ++ [request] }
  | Event.fetchResolves reply =>
    match w.pending with
    | [] => w
    | _ :: rest => { app := handleSearchSettle w.app reply, pending := rest }
  | Event.toggleUnit => { w with app := toggleTemperatureUnit w.app }

/-- Runs a sequence of events. -/
def run (w : World) (events : List Event) : World := events.foldl step w

/-- A page on which nothing has been rendered yet. -/
def blankPage : Document :=
  { locationInput := "", locationName := "", temperature := "", weatherIcon := none
    description := "", feelsLike := "", humidity := "", windSpeed := "", pressure := ""
    visibility := "", weatherDisplayShown := false, loadingShown := false, modalShown := false
    themeIcon := "", themeText := "", tempToggle := "°C / °F", dataTheme := none
    storedTheme := none }

/-! ## The taxonomy of the specification -/

/-- Failure kinds a fetch can end in, as the specification of the provider client names them. -/
inductive WeatherError where
  | networkFailure
  | locationNotFound
  | invalidCredentials
  | providerError (status : Nat)
  | malformedResponse
  deriving DecidableEq, Repr

/-- Request state of the specification read off a page: the loading indicator stands for
`Loading`, the error modal for `Error`, the weather display for `Displaying`. -/
inductive RequestState where
  | idle
  | loading
  | error
  | displaying
  deriving DecidableEq, Repr

/-- Reads the request state off the visible surfaces. -/
def requestState (d : Document) : RequestState :=
  if d.loadingShown then RequestState.loading
  else if d.modalShown then RequestState.error
  else if d.weatherDisplayShown then RequestState.displaying
  else RequestState.idle

/-! ## Auxiliary predicates -/

/-- A tail at which a numeral ends: empty, or starting with a character that is neither a
digit nor the `x` of a hexadecimal marker. -/
def EndsNumeral (tail : List Char) : Prop :=
  ∀ c ∈ tail.head?, isDigit c = false ∧ c ≠ 'x' ∧ c ≠ 'X'

/-! ## Sample inputs -/

/-- The record of the specification's rendering example: 21.6 °C, feels like 20.4 °C,
humidity 55 %, pressure 1013 hPa, wind 5.2 m/s, visibility 10000 m. -/
def sampleData : ProviderData :=
  { name := "London"
    sys := some { country := "GB" }
    main := some { temp := some 21.6, feels_like := some 20.4, humidity := "55", pressure := "1013" }
    weather := some [{ main := "Clouds", description := "overcast clouds", icon := "04d" }]
    wind := some { speed := some 5.2 }
    visibility := some 10000 }

/-- A successful provider reply carrying `sampleData`. -/
def sampleReply : FetchReply :=
  Except.ok { ok := true, status := 200, json := Except.ok sampleData }

/-- A page showing 22 °C (feels like 22 °C) in Metric mode. -/
def shown22 : App :=
  { constructor blankPage with
    doc := { (constructor blankPage).doc with
      weatherDisplayShown := true
      temperature := "22°C"
      feelsLike := "Feels like 22°C" } }

/-- The application as constructed on a blank page, with `query` typed into the input. -/
def freshWithInput (query : String) : App :=
  { constructor blankPage with
    doc := { (constructor blankPage).doc with locationInput := query } }

/-- A deployment of the application: the constructed instance with a provider key filled in. -/
def deployed : App := { constructor blankPage with API_KEY := "0123456789abcdef" }

/-- The body of a provider reply to a `units=metric` request: 20 degrees Celsius. -/
def metricData20 : ProviderData :=
  { name := "London"
    sys := some { country := "GB" }
    main := some { temp := some 20, feels_like := some 20, humidity := "55", pressure := "1013" }
    weather := some [{ main := "Clear", description := "clear sky", icon := "01d" }]
    wind := some { speed := some 5 }
    visibility := some 10000 }

/-- A successful provider reply carrying `metricData20`. -/
def metricReply20 : FetchReply :=
  Except.ok { ok := true, status := 200, json := Except.ok metricData20 }

/-- The sample record without its member `sys`. -/
def sampleDataNoSys : ProviderData := { sampleData with sys := none }

/-- The provider's reply to a query for a place it does not know. -/
def notFoundReply : FetchReply :=
  Except.ok
    { ok := false
      status := 404
      json := Except.error { name := "SyntaxError", message := "Unexpected end of JSON input" } }

/-! ## Numerals: printing and reading back -/

theorem digitChar_toNat (d : Nat) (h : d < 10) : (digitChar d).toNat = 48 + d := by
  interval_cases d <;> rfl

theorem isDigit_digitChar (d : Nat) (h : d < 10) : isDigit (digitChar d) = true := by
  interval_cases d <;> rfl

theorem decimalDigits_all_digit (fuel n : Nat) :
    ∀ c ∈ decimalDigits fuel n, isDigit c = true := by
  induction fuel generalizing n with
  | zero => intro c hc; simp [decimalDigits] at hc
  | succ fuel ih =>
    intro c hc
    unfold decimalDigits at hc
    split at hc
    · rename_i hlt
      simp only [List.mem_singleton] at hc
      subst hc
      exact isDigit_digitChar n hlt
    · rcases List.mem_append.mp hc with h | h
      · exact ih _ c h
      · simp only [List.mem_singleton] at h
        subst h
        exact isDigit_digitChar _ (Nat.mod_lt _ (by norm_num))

theorem decimalDigits_ne_nil (fuel n : Nat) : decimalDigits (fuel + 1) n ≠ [] := by
  unfold decimalDigits
  split <;> simp

theorem decimalValue_append_singleton (ds : List Char) (c : Char) :
    decimalValue (ds ++ [c]) = decimalValue ds * 10 + (c.toNat - 48) := by
  simp [decimalValue, List.foldl_append]

theorem decimalValue_decimalDigits (fuel n : Nat) (h : n < fuel) :
    decimalValue (decimalDigits fuel n) = n := by
  induction fuel generalizing n with
  | zero => omega
  | succ fuel ih =>
    unfold decimalDigits
    split
    · rename_i hlt
      simp [decimalValue, digitChar_toNat n hlt]
    · rename_i hge
      rw [decimalValue_append_singleton, ih (n / 10) (by omega),
        digitChar_toNat _ (Nat.mod_lt _ (by norm_num))]
      omega

theorem takeWhile_digits_append (ds tail : List Char) (hds : ∀ c ∈ ds, isDigit c = true)
    (htail : EndsNumeral tail) : (ds ++ tail).takeWhile isDigit = ds := by
  induction ds with
  | nil =>
    cases tail with
    | nil => rfl
    | cons c rest =>
      have := (htail c (by simp)).1
      simp [List.takeWhile, this]
  | cons d ds ih =>
    have hd : isDigit d = true := hds d (by simp)
    simp only [List.cons_append, List.takeWhile_cons, hd, if_true]
    rw [ih (fun c hc => hds c (by simp [hc]))]

theorem startsWithHexMarker_short (s : List Char) (h : s.length < 2) :
    startsWithHexMarker s = false := by
  unfold startsWithHexMarker
  split
  · simp only [List.length_cons] at h
    omega
  · rfl

theorem startsWithHexMarker_second (a b : Char) (rest : List Char)
    (h : (b == 'x' || b == 'X') = false) : startsWithHexMarker (a :: b :: rest) = false := by
  unfold startsWithHexMarker
  split
  · rename_i heq
    simp only [List.cons.injEq] at heq
    obtain ⟨_, rfl, _⟩ := heq
    exact h
  · rfl

theorem not_hexMarker_of_isDigit (c : Char) (hc : isDigit c = true) :
    (c == 'x' || c == 'X') = false := by
  have h1 : c ≠ 'x' := by rintro rfl; revert hc; decide
  have h2 : c ≠ 'X' := by rintro rfl; revert hc; decide
  simp [h1, h2]

theorem startsWithHexMarker_digits (ds tail : List Char) (hds : ∀ c ∈ ds, isDigit c = true)
    (hne : ds ≠ []) (htail : EndsNumeral tail) : startsWithHexMarker (ds ++ tail) = false := by
  rcases ds with _ | ⟨d, _ | ⟨d2, ds⟩⟩
  · exact absurd rfl hne
  · rcases tail with _ | ⟨c, rest⟩
    · exact startsWithHexMarker_short _ (by simp)
    · have hc := htail c (by simp)
      exact startsWithHexMarker_second _ _ _ (by simp [hc.2.1, hc.2.2])
  · exact startsWithHexMarker_second _ _ _ (not_hexMarker_of_isDigit _ (hds d2 (by simp)))

theorem parseMagnitude_natChars (n : Nat) (tail : List Char) (htail : EndsNumeral tail) :
    parseMagnitude (natChars n ++ tail) = some n := by
  have hds := decimalDigits_all_digit (n + 1) n
  have hne := decimalDigits_ne_nil n n
  unfold parseMagnitude natChars
  rw [startsWithHexMarker_digits _ _ hds hne htail]
  simp only [Bool.false_eq_true, if_false]
  rw [takeWhile_digits_append _ _ hds htail]
  split
  · rename_i heq; exact absurd heq hne
  · rw [decimalValue_decimalDigits _ _ (Nat.lt_succ_self n)]

theorem natChars_head_digit (n : Nat) :
    ∃ d ds, natChars n = d :: ds ∧ isDigit d = true ∧ ∀ c ∈ ds, isDigit c = true := by
  have hds := decimalDigits_all_digit (n + 1) n
  have hne := decimalDigits_ne_nil n n
  unfold natChars
  rcases h : decimalDigits (n + 1) n with _ | ⟨d, ds⟩
  · exact absurd h hne
  · rw [h] at hds
    exact ⟨d, ds, rfl, hds d (by simp), fun c hc => hds c (by simp [hc])⟩

theorem isDigit_not_space (c : Char) (h : isDigit c = true) :
    isJsWhitespace c = false ∧ c ≠ '-' ∧ c ≠ '+' := by
  simp only [isDigit, Bool.and_eq_true, decide_eq_true_eq] at h
  refine ⟨?_, ?_, ?_⟩
  · simp only [isJsWhitespace, Bool.or_eq_false_iff, Bool.and_eq_false_iff, decide_eq_false_iff_not]
    omega
  · rintro rfl; revert h; decide
  · rintro rfl; revert h; decide

theorem parseIntChars_intChars (z : ℤ) (tail : List Char) (htail : EndsNumeral tail) :
    parseIntChars (intChars z ++ tail) = some z := by
  cases z with
  | ofNat n =>
    obtain ⟨d, ds, hnat, hd, _⟩ := natChars_head_digit n
    obtain ⟨hsp, hminus, hplus⟩ := isDigit_not_space d hd
    have hmag := parseMagnitude_natChars n tail htail
    simp only [intChars]
    rw [hnat] at hmag ⊢
    unfold parseIntChars
    simp only [List.cons_append, List.dropWhile_cons, hsp, Bool.false_eq_true, if_false]
    split
    · rename_i heq
      simp only [List.cons.injEq] at heq
      exact absurd heq.1 hminus
    · rename_i heq
      simp only [List.cons.injEq] at heq
      exact absurd heq.1 hplus
    · simp only [List.cons_append] at hmag
      rw [hmag]
      rfl
  | negSucc n =>
    have hmag := parseMagnitude_natChars (n + 1) tail htail
    simp only [intChars]
    unfold parseIntChars
    have hsp : isJsWhitespace '-' = false := by decide
    simp only [List.cons_append, List.dropWhile_cons, hsp, Bool.false_eq_true, if_false]
    rw [hmag]
    simp [Int.negSucc_eq]

theorem endsNumeral_nil : EndsNumeral [] := by
  intro c hc
  simp at hc

theorem endsNumeral_degree (rest : List Char) : EndsNumeral ('°' :: rest) := by
  intro c hc
  simp only [List.head?_cons, Option.mem_def, Option.some.injEq] at hc
  subst hc
  decide

theorem matchSignedDigits_intChars (z : ℤ) (tail : List Char) (htail : EndsNumeral tail) :
    matchSignedDigits (intChars z ++ tail) = some (intChars z) := by
  cases z with
  | ofNat n =>
    obtain ⟨d, ds, hnat, hd, hds⟩ := natChars_head_digit n
    obtain ⟨_, hminus, _⟩ := isDigit_not_space d hd
    simp only [intChars, hnat, List.cons_append]
    unfold matchSignedDigits
    simp only [hminus, if_false, hd, if_true]
    rw [takeWhile_digits_append ds tail hds htail]
  | negSucc n =>
    obtain ⟨d, ds, hnat, hd, hds⟩ := natChars_head_digit (n + 1)
    have htw : (natChars (n + 1) ++ tail).takeWhile isDigit = natChars (n + 1) :=
      takeWhile_digits_append _ tail (decimalDigits_all_digit _ _) htail
    simp only [intChars, List.cons_append]
    unfold matchSignedDigits
    simp only [if_true]
    rw [htw, hnat]

theorem matchSignedDigits_feelsLike (z : ℤ) (tail : List Char) (htail : EndsNumeral tail) :
    matchSignedDigits ("Feels like ".data ++ (intChars z ++ tail)) = some (intChars z) := by
  have h := matchSignedDigits_intChars z tail htail
  have step : ∀ (c : Char) (rest : List Char), c ≠ '-' → isDigit c = false →
      matchSignedDigits (c :: rest) = matchSignedDigits rest := by
    intro c rest h1 h2
    rw [matchSignedDigits]
    simp [h1, h2]
  show matchSignedDigits ('F' :: 'e' :: 'e' :: 'l' :: 's' :: ' ' :: 'l' :: 'i' :: 'k' :: 'e' ::
    ' ' :: (intChars z ++ tail)) = _
  rw [step _ _ (by decide) (by decide), step _ _ (by decide) (by decide),
    step _ _ (by decide) (by decide), step _ _ (by decide) (by decide),
    step _ _ (by decide) (by decide), step _ _ (by decide) (by decide),
    step _ _ (by decide) (by decide), step _ _ (by decide) (by decide),
    step _ _ (by decide) (by decide), step _ _ (by decide) (by decide),
    step _ _ (by decide) (by decide), h]

/-! ## Rounding -/

theorem mathRound_eq_iff (x : ℚ) (z : ℤ) :
    mathRound x = z ↔ (z : ℚ) - 1 / 2 ≤ x ∧ x < (z : ℚ) + 1 / 2 := by
  unfold mathRound
  rw [Int.floor_eq_iff]
  constructor <;> rintro ⟨h1, h2⟩ <;> constructor <;> linarith

theorem mathRound_intCast (z : ℤ) : mathRound (z : ℚ) = z := by
  rw [mathRound_eq_iff]
  constructor <;> linarith

/-- Converting a whole number of degrees Celsius to Fahrenheit and back, rounding at each
step as the script does, is exact. -/
theorem convertTemp_roundTrip (c : ℤ) : convertTemp true (convertTemp false c) = c := by
  simp only [convertTemp, if_true, Bool.false_eq_true, if_false]
  obtain ⟨h1, h2⟩ := (mathRound_eq_iff ((c : ℚ) * 9 / 5 + 32) _).mp rfl
  rw [mathRound_eq_iff]
  constructor <;> linarith

/-! ## Doubles -/

theorem log_two_eq (x : ℚ) (e : ℤ) (hlo : (2 : ℚ) ^ e ≤ |x|) (hhi : |x| < (2 : ℚ) ^ (e + 1)) :
    Int.log 2 |x| = e := by
  have hpos : (0 : ℚ) < |x| := lt_of_lt_of_le (by positivity) hlo
  have h1 : e ≤ Int.log 2 |x| :=
    (Int.zpow_le_iff_le_log (by norm_num) hpos).mp (by exact_mod_cast hlo)
  have h2 : Int.log 2 |x| < e + 1 :=
    (Int.lt_zpow_iff_log_lt (by norm_num) hpos).mp (by exact_mod_cast hhi)
  omega

/-- The double nearest to a positive `x` of the binade `[2^e, 2^(e+1))`. -/
theorem toDouble_of_binade (x : ℚ) (e n : ℤ) (hlo : (2 : ℚ) ^ e ≤ x)
    (hhi : x < (2 : ℚ) ^ (e + 1)) (hmin : -1022 ≤ e)
    (hn : roundHalfEven (x / 2 ^ (e - 52)) = n) : toDouble x = (n : ℚ) * 2 ^ (e - 52) := by
  have hpos : (0 : ℚ) < x := lt_of_lt_of_le (by positivity) hlo
  have habs : |x| = x := abs_of_pos hpos
  unfold toDouble
  rw [if_neg hpos.ne', log_two_eq x e (by rw [habs]; exact hlo) (by rw [habs]; exact hhi),
    max_eq_left hmin, hn]

theorem roundHalfEven_nonneg (x : ℚ) (hx : 0 ≤ x) : 0 ≤ roundHalfEven x := by
  have hf : 0 ≤ ⌊x⌋ := Int.floor_nonneg.mpr hx
  unfold roundHalfEven
  split
  · exact hf
  · split
    · omega
    · split <;> omega

theorem toDouble_nonneg (x : ℚ) (hx : 0 ≤ x) : 0 ≤ toDouble x := by
  unfold toDouble
  split
  · exact le_refl 0
  · have h := roundHalfEven_nonneg (x / 2 ^ (max (Int.log 2 |x|) (-1022) - 52))
      (div_nonneg hx (by positivity))
    have hc : (0 : ℚ) ≤ (roundHalfEven (x / 2 ^ (max (Int.log 2 |x|) (-1022) - 52)) : ℚ) := by
      exact_mod_cast h
    exact mul_nonneg hc (by positivity)

theorem jsDiv_nonneg (a b : ℚ) (ha : 0 ≤ a) (hb : 0 ≤ b) : 0 ≤ jsDiv a b :=
  toDouble_nonneg _ (div_nonneg ha hb)

/-- The Number of the numeral `21.6`. -/
theorem toDouble_sample_temp : toDouble 21.6 = 3039929748475085 / 140737488355328 := by
  rw [toDouble_of_binade 21.6 4 6079859496950170 (by norm_num) (by norm_num) (by norm_num)
    (by norm_num [roundHalfEven])]
  norm_num

/-- The Number of the numeral `20.4`. -/
theorem toDouble_sample_feels : toDouble 20.4 = 2871044762448691 / 140737488355328 := by
  rw [toDouble_of_binade 20.4 4 5742089524897382 (by norm_num) (by norm_num) (by norm_num)
    (by norm_num [roundHalfEven])]
  norm_num

/-- The Number of the numeral `5.2`. -/
theorem toDouble_sample_wind : toDouble 5.2 = 5854679515581645 / 1125899906842624 := by
  rw [toDouble_of_binade 5.2 2 5854679515581645 (by norm_num) (by norm_num) (by norm_num)
    (by norm_num [roundHalfEven])]
  norm_num

/-- The Number of the literal `3.6`. -/
theorem toDouble_factor : toDouble 3.6 = 8106479329266893 / 2251799813685248 := by
  rw [toDouble_of_binade 3.6 1 8106479329266893 (by norm_num) (by norm_num) (by norm_num)
    (by norm_num [roundHalfEven])]
  norm_num

/-- The double product `5.2 * 3.6`, a little above 18.72. -/
theorem jsMul_sample_wind :
    jsMul (toDouble 5.2) (toDouble 3.6) = 5269211564023481 / 281474976710656 := by
  rw [toDouble_sample_wind, toDouble_factor]
  unfold jsMul
  rw [toDouble_of_binade _ 4 5269211564023481 (by norm_num) (by norm_num) (by norm_num)
    (by norm_num [roundHalfEven])]
  norm_num

theorem toDouble_ten : toDouble 10 = 10 := by
  rw [toDouble_of_binade 10 3 5629499534213120 (by norm_num) (by norm_num) (by norm_num)
    (by norm_num [roundHalfEven])]
  norm_num

theorem toDouble_twenty : toDouble 20 = 20 := by
  rw [toDouble_of_binade 20 4 5629499534213120 (by norm_num) (by norm_num) (by norm_num)
    (by norm_num [roundHalfEven])]
  norm_num

/-- The double quotient `10000 / 1000` is 10. -/
theorem jsDiv_sample_visibility : jsDiv (toDouble 10000) 1000 = 10 := by
  have h : toDouble 10000 = 10000 := by
    rw [toDouble_of_binade 10000 13 5497558138880000 (by norm_num) (by norm_num) (by norm_num)
      (by norm_num [roundHalfEven])]
    norm_num
  rw [h]
  unfold jsDiv
  norm_num
  exact toDouble_ten

theorem mathRound_sample_temp : mathRound (toDouble 21.6) = 22 := by
  rw [toDouble_sample_temp]
  norm_num [mathRound]

theorem mathRound_sample_feels : mathRound (toDouble 20.4) = 20 := by
  rw [toDouble_sample_feels]
  norm_num [mathRound]

theorem mathRound_sample_wind : mathRound (jsMul (toDouble 5.2) (toDouble 3.6)) = 19 := by
  rw [jsMul_sample_wind]
  norm_num [mathRound]

/-- The double quotient `150 / 1000` lies below 0.15, so `toFixed(1)` prints `0.1`. -/
theorem toFixed1_visibility_150 : toFixed1 (some (jsDiv (toDouble 150) 1000)) = "0.1" := by
  have h : toDouble 150 = 150 := by
    rw [toDouble_of_binade 150 7 5277655813324800 (by norm_num) (by norm_num) (by norm_num)
      (by norm_num [roundHalfEven])]
    norm_num
  have hq : jsDiv (toDouble 150) 1000 = 5404319552844595 / 36028797018963968 := by
    rw [h]
    unfold jsDiv
    rw [toDouble_of_binade _ (-3) 5404319552844595 (by norm_num) (by norm_num) (by norm_num)
      (by norm_num [roundHalfEven])]
    norm_num
  have hr : mathRound (10 * |(5404319552844595 / 36028797018963968 : ℚ)|) = 1 := by
    rw [abs_of_pos (by norm_num)]
    norm_num [mathRound]
  have hneg : ¬ ((5404319552844595 / 36028797018963968 : ℚ) < 0) := by norm_num
  rw [hq]
  simp only [toFixed1, hr, hneg, if_false]
  rfl

/-! ## The unit toggle on rendered text -/

theorem temperature_text_data (v : Option ℤ) (u : String) :
    (numberToString v ++ "°" ++ u).data = (numberToString v).data ++ ('°' :: u.data) := by
  simp [String.data_append]

theorem feelsLike_text_data (v : Option ℤ) (u : String) :
    ("Feels like " ++ numberToString v ++ "°" ++ u).data =
      "Feels like ".data ++ ((numberToString v).data ++ ('°' :: u.data)) := by
  simp [String.data_append]

theorem parseInt_temperature_text (v : ℤ) (u : String) :
    parseInt (numberToString (some v) ++ "°" ++ u) = some v := by
  unfold parseInt
  rw [temperature_text_data]
  exact parseIntChars_intChars v _ (endsNumeral_degree _)

theorem match_feelsLike_text (v : ℤ) (u : String) :
    matchSignedDigits ("Feels like " ++ numberToString (some v) ++ "°" ++ u).data =
      some (intChars v) := by
  rw [feelsLike_text_data]
  exact matchSignedDigits_feelsLike v _ (endsNumeral_degree _)

theorem parseIntChars_capture (v : ℤ) : parseIntChars (intChars v) = some v := by
  have h := parseIntChars_intChars v [] endsNumeral_nil
  simpa using h

/-- What one click on the unit toggle does to a displayed pair of whole-number readings. -/
theorem toggleTemperatureUnit_shown (app : App) (v w : ℤ)
    (hshown : app.doc.weatherDisplayShown = true)
    (htemp : app.doc.temperature = numberToString (some v) ++ "°" ++ unitLetter app.isMetric)
    (hfeels : app.doc.feelsLike =
      "Feels like " ++ numberToString (some w) ++ "°" ++ unitLetter app.isMetric) :
    toggleTemperatureUnit app =
      { app with
        isMetric := !app.isMetric
        doc := { app.doc with
          tempToggle := if (!app.isMetric) = true then "°C / °F" else "°F / °C"
          temperature := numberToString (some (convertTemp (!app.isMetric) v)) ++ "°" ++
            unitLetter (!app.isMetric)
          feelsLike := "Feels like " ++ numberToString (some (convertTemp (!app.isMetric) w)) ++
            "°" ++ unitLetter (!app.isMetric) } } := by
  unfold toggleTemperatureUnit
  simp only [hshown, if_true, htemp, hfeels, parseInt_temperature_text, match_feelsLike_text,
    parseIntChars_capture, Option.map_some']

/-! ## Rendering -/

/-- The page after a rendering that runs to the end. -/
theorem displayWeatherData_complete (data : ProviderData) (app : App) (sys : SysBlock)
    (main : MainBlock) (w : WeatherEntry) (ws : List WeatherEntry) (wind : WindBlock)
    (hsys : data.sys = some sys) (hmain : data.main = some main)
    (hweather : data.weather = some (w :: ws)) (hwind : data.wind = some wind) :
    displayWeatherData data app =
      ({ app with doc := { app.doc with
          locationName := data.name ++ ", " ++ sys.country
          temperature := numberToString (mathRoundN (main.temp.map toDouble)) ++ "°" ++
            unitLetter app.isMetric
          description := w.description
          feelsLike := "Feels like " ++ numberToString (mathRoundN (main.feels_like.map toDouble))
            ++ "°" ++ unitLetter app.isMetric
          weatherIcon := some (chosenIcon w.main)
          humidity := main.humidity ++ "%"
          windSpeed := numberToString
            (mathRoundN (wind.speed.map (fun v => jsMul (toDouble v) (toDouble 3.6)))) ++ " km/h"
          pressure := main.pressure ++ " hPa"
          visibility := toFixed1 (data.visibility.map (fun v => jsDiv (toDouble v) 1000)) ++ " km"
          weatherDisplayShown := true
          locationInput := "" } }, none) := by
  simp [displayWeatherData, hsys, hmain, hweather, hwind, updateWeatherIcon]

/-- A rendering that throws does so before the display is revealed, and never touches the
loading indicator, the modal or the fields of the instance. -/
theorem displayWeatherData_visibility (data : ProviderData) (app : App) :
    (displayWeatherData data app).1.doc.loadingShown = app.doc.loadingShown ∧
    (displayWeatherData data app).1.doc.modalShown = app.doc.modalShown ∧
    (displayWeatherData data app).1.isMetric = app.isMetric ∧
    ((displayWeatherData data app).2 = none →
      (displayWeatherData data app).1.doc.weatherDisplayShown = true) ∧
    ((displayWeatherData data app).2 ≠ none →
      (displayWeatherData data app).1.doc.weatherDisplayShown = app.doc.weatherDisplayShown) := by
  unfold displayWeatherData
  rcases data.sys with _ | sys <;> rcases data.main with _ | main <;>
    rcases data.weather with _ | _ | ⟨w, ws⟩ <;> rcases data.wind with _ | wind <;>
    simp [updateWeatherIcon]

/-! ## Claims -/

/-- C1: for every integer `c` with `-90 ≤ c ≤ 60`, on a page that shows `c°C` and
`Feels like c°C` in Metric mode, two clicks on the unit toggle restore Metric mode and exactly
the same two texts; equivalently `round((round(c·9/5 + 32) - 32)·5/9) = c`. -/
theorem toggleTemperatureUnit_twice_restores (app : App) (c : ℤ)
    (_hlo : -90 ≤ c) (_hhi : c ≤ 60)
    (hshown : app.doc.weatherDisplayShown = true) (hmetric : app.isMetric = true)
    (htemp : app.doc.temperature = numberToString (some c) ++ "°C")
    (hfeels : app.doc.feelsLike = "Feels like " ++ numberToString (some c) ++ "°C") :
    (toggleTemperatureUnit (toggleTemperatureUnit app)).isMetric = true ∧
    (toggleTemperatureUnit (toggleTemperatureUnit app)).doc.temperature
      = numberToString (some c) ++ "°C" ∧
    (toggleTemperatureUnit (toggleTemperatureUnit app)).doc.feelsLike
      = "Feels like " ++ numberToString (some c) ++ "°C" ∧
    mathRound ((((mathRound ((c : ℚ) * 9 / 5 + 32) : ℤ) : ℚ) - 32) * 5 / 9) = c := by
  have hC : ∀ s : String, s ++ "°C" = s ++ "°" ++ unitLetter true := by
    intro s
    rw [String.append_assoc]
    rfl
  have h1 := toggleTemperatureUnit_shown app c c hshown
    (by rw [htemp, hmetric, hC]) (by rw [hfeels, hmetric, hC])
  have h2 := toggleTemperatureUnit_shown (toggleTemperatureUnit app) (convertTemp false c)
    (convertTemp false c) (by rw [h1]; exact hshown) (by rw [h1, hmetric]; rfl)
    (by rw [h1, hmetric]; rfl)
  have hrt := convertTemp_roundTrip c
  refine ⟨?_, ?_, ?_, ?_⟩
  · rw [h2, h1, hmetric]; rfl
  · rw [h2, h1, hmetric, hC]
    show numberToString (some (convertTemp true (convertTemp false c))) ++ "°" ++ unitLetter true = _
    rw [hrt]
  · rw [h2, h1, hmetric, hC]
    show "Feels like " ++ numberToString (some (convertTemp true (convertTemp false c))) ++ "°" ++
      unitLetter true = _
    rw [hrt]
  · simpa [convertTemp] using hrt

/-- Witness of C1 at `c = 22`: the page showing `22°C` shows `22°C` again after two clicks. -/
theorem toggleTemperatureUnit_twice_restores_witness :
    (toggleTemperatureUnit (toggleTemperatureUnit shown22)).isMetric = true ∧
    (toggleTemperatureUnit (toggleTemperatureUnit shown22)).doc.temperature = "22°C" ∧
    (toggleTemperatureUnit (toggleTemperatureUnit shown22)).doc.feelsLike = "Feels like 22°C" ∧
    mathRound ((((mathRound (((22 : ℤ) : ℚ) * 9 / 5 + 32) : ℤ) : ℚ) - 32) * 5 / 9) = 22 :=
  toggleTemperatureUnit_twice_restores shown22 22 (by decide) (by decide) rfl rfl rfl rfl

/-- C2, counterexample: the record with temperature 21.6 is rendered as `22°C` in Metric mode
and one click on the unit toggle turns the text into `72°F`, while `round(21.6·9/5 + 32)`
followed by `°F` is `71°F`. -/
theorem toggle_after_display_not_from_record :
    (toggleTemperatureUnit (displayWeatherData sampleData (constructor blankPage)).1).doc.temperature
      = "72°F" ∧
    numberToString (some (mathRound ((21.6 : ℚ) * 9 / 5 + 32))) ++ "°F" = "71°F" ∧
    numberToString (some (mathRound (toDouble 21.6 * 9 / 5 + 32))) ++ "°F" = "71°F" ∧
    (toggleTemperatureUnit (displayWeatherData sampleData (constructor blankPage)).1).doc.temperature
      ≠ numberToString (some (mathRound ((21.6 : ℚ) * 9 / 5 + 32))) ++ "°F" := by
  have hdisp := displayWeatherData_complete sampleData (constructor blankPage) _ _ _ _ _
    rfl rfl rfl rfl
  have r3 : convertTemp false 22 = 72 := by norm_num [convertTemp, mathRound]
  have r4 : mathRound ((21.6 : ℚ) * 9 / 5 + 32) = 71 := by norm_num [mathRound]
  have r5 : mathRound (toDouble 21.6 * 9 / 5 + 32) = 71 := by
    rw [toDouble_sample_temp]
    norm_num [mathRound]
  have htog := toggleTemperatureUnit_shown (displayWeatherData sampleData (constructor blankPage)).1
    22 20 (by rw [hdisp])
    (by rw [hdisp]; simp only [sampleData, Option.map_some', mathRoundN, mathRound_sample_temp])
    (by rw [hdisp]; simp only [sampleData, Option.map_some', mathRoundN, mathRound_sample_feels])
  have hm : (displayWeatherData sampleData (constructor blankPage)).1.isMetric = true := by
    rw [hdisp]; rfl
  have h72 : (toggleTemperatureUnit
      (displayWeatherData sampleData (constructor blankPage)).1).doc.temperature = "72°F" := by
    rw [htog, hm]
    simp only [Bool.not_true, r3]
    rfl
  have h71 : numberToString (some (mathRound ((21.6 : ℚ) * 9 / 5 + 32))) ++ "°F" = "71°F" := by
    rw [r4]; rfl
  have h71d : numberToString (some (mathRound (toDouble 21.6 * 9 / 5 + 32))) ++ "°F" = "71°F" := by
    rw [r5]; rfl
  refine ⟨h72, h71, h71d, ?_⟩
  rw [h72, h71]
  decide

/-- C2, amended: after a complete rendering in Metric mode of a record with temperature `t` and
feels-like value `u` of magnitude at most `10^9`, one click on the unit toggle sets the
temperature text to `round(round(t)·9/5 + 32)` followed by `°F` and the feels-like text to
`Feels like `, `round(round(u)·9/5 + 32)` and `°F`: the values are converted from the
rendered, rounded text. -/
theorem toggle_after_display_from_rounded_text (app : App) (data : ProviderData)
    (main : MainBlock) (t u : ℚ) (hmetric : app.isMetric = true)
    (hok : (displayWeatherData data app).2 = none)
    (hmain : data.main = some main) (ht : main.temp = some t) (hu : main.feels_like = some u)
    (_htb : |t| ≤ 10 ^ 9) (_hub : |u| ≤ 10 ^ 9) :
    (toggleTemperatureUnit (displayWeatherData data app).1).doc.temperature
      = numberToString (some (mathRound (((mathRound (toDouble t) : ℤ) : ℚ) * 9 / 5 + 32)))
          ++ "°F" ∧
    (toggleTemperatureUnit (displayWeatherData data app).1).doc.feelsLike
      = "Feels like " ++
          numberToString (some (mathRound (((mathRound (toDouble u) : ℤ) : ℚ) * 9 / 5 + 32)))
          ++ "°F" := by
  have hF : ∀ s : String, s ++ "°" ++ unitLetter false = s ++ "°F" := by
    intro s
    rw [String.append_assoc]
    rfl
  rcases hsys : data.sys with _ | sys
  · simp [displayWeatherData, hsys] at hok
  rcases hweather : data.weather with _ | _ | ⟨w, ws⟩
  · simp [displayWeatherData, hsys, hmain, hweather] at hok
  · simp [displayWeatherData, hsys, hmain, hweather] at hok
  rcases hwind : data.wind with _ | wind
  · simp [displayWeatherData, hsys, hmain, hweather, hwind] at hok
  have hdisp := displayWeatherData_complete data app sys main w ws wind hsys hmain hweather hwind
  have htog := toggleTemperatureUnit_shown (displayWeatherData data app).1
    (mathRound (toDouble t)) (mathRound (toDouble u)) (by rw [hdisp]) (by rw [hdisp, ht]; rfl)
    (by rw [hdisp, hu]; rfl)
  have hm : (displayWeatherData data app).1.isMetric = true := by
    rw [hdisp]; exact hmetric
  rw [htog, hm]
  simp only [Bool.not_true, convertTemp, Bool.false_eq_true, if_false, hF]
  exact ⟨trivial, trivial⟩

/-- Witness of the amended C2 on the sample record: `72°F` and `Feels like 68°F`. -/
theorem toggle_after_display_from_rounded_text_witness :
    (toggleTemperatureUnit (displayWeatherData sampleData (constructor blankPage)).1).doc.temperature
      = numberToString (some (mathRound (((mathRound (toDouble 21.6) : ℤ) : ℚ) * 9 / 5 + 32)))
          ++ "°F" ∧
    (toggleTemperatureUnit (displayWeatherData sampleData (constructor blankPage)).1).doc.feelsLike
      = "Feels like " ++
          numberToString (some (mathRound (((mathRound (toDouble 20.4) : ℤ) : ℚ) * 9 / 5 + 32)))
          ++ "°F" :=
  toggle_after_display_from_rounded_text (constructor blankPage) sampleData
    { temp := some 21.6, feels_like := some 20.4, humidity := "55", pressure := "1013" }
    21.6 20.4 rfl (by simp [displayWeatherData, sampleData]) rfl rfl rfl
    (by rw [abs_of_pos (by norm_num)]; norm_num) (by rw [abs_of_pos (by norm_num)]; norm_num)

theorem mathRound_nonneg (x : ℚ) (hx : 0 ≤ x) : 0 ≤ mathRound x := by
  unfold mathRound
  exact Int.floor_nonneg.mpr (by linarith)

/-- On a non-negative value `toFixed(1)` prints an integer part, a point and one digit, and
the number printed is within one twentieth of the value. -/
theorem toFixed1_nonneg (x : ℚ) (hx : 0 ≤ x) :
    ∃ n : ℕ, |(n : ℚ) / 10 - x| ≤ 1 / 20 ∧ n % 10 < 10 ∧
      toFixed1 (some x) = String.mk (natChars (n / 10) ++ ['.', digitChar (n % 10)]) := by
  have habs : |x| = x := abs_of_nonneg hx
  have hnn : 0 ≤ mathRound (10 * x) := mathRound_nonneg _ (by linarith)
  obtain ⟨h1, h2⟩ := (mathRound_eq_iff (10 * x) _).mp rfl
  refine ⟨(mathRound (10 * x)).toNat, ?_, Nat.mod_lt _ (by norm_num), ?_⟩
  · have hcast : (((mathRound (10 * x)).toNat : ℕ) : ℚ) = ((mathRound (10 * x) : ℤ) : ℚ) := by
      have := Int.toNat_of_nonneg hnn
      exact_mod_cast this
    rw [hcast, abs_le]
    constructor <;> linarith
  · simp only [toFixed1, habs, not_lt.mpr hx, if_false]

/-- C3, counterexample: the sample record without its member `sys` has the four numeric
members, yet `displayWeatherData` throws on line 195 and writes none of the four texts. -/
theorem displayWeatherData_without_sys_writes_nothing :
    sampleDataNoSys.main = sampleData.main ∧ sampleDataNoSys.wind = sampleData.wind ∧
    sampleDataNoSys.visibility = sampleData.visibility ∧
    displayWeatherData sampleDataNoSys (constructor blankPage)
      = (constructor blankPage, some (typeError "country")) ∧
    (displayWeatherData sampleDataNoSys (constructor blankPage)).1.doc.temperature = "" ∧
    (displayWeatherData sampleDataNoSys (constructor blankPage)).1.doc.temperature
      ≠ numberToString (some (mathRound (toDouble 21.6))) ++ "°C" ∧
    (displayWeatherData sampleDataNoSys (constructor blankPage)).1.doc.windSpeed
      ≠ numberToString (some (mathRound (jsMul (toDouble 5.2) (toDouble 3.6)))) ++ " km/h" := by
  refine ⟨rfl, rfl, rfl, rfl, rfl, ?_, ?_⟩
  · rw [mathRound_sample_temp]
    decide
  · rw [mathRound_sample_wind]
    decide

/-- C3, amended: for a provider record that has the members `sys`, `weather[0]` and `wind`,
with numeric temperature `t`, feels-like value `u`, wind speed `s ≥ 0` and visibility `v ≥ 0`,
all of magnitude at most `10^15`, `displayWeatherData` in Metric mode completes and writes
`round(t)°C`, `Feels like round(u)°C`, `round(s * 3.6) km/h` and the double `v / 1000` with
exactly one decimal place followed by ` km`; for 21.6, 20.4, 5.2 and 10000 these are `22°C`,
`Feels like 20°C`, `19 km/h` and `10.0 km`. -/
theorem displayWeatherData_metric_texts (app : App) (data : ProviderData) (sys : SysBlock)
    (main : MainBlock) (w : WeatherEntry) (ws : List WeatherEntry) (wind : WindBlock)
    (t u s v : ℚ) (hmetric : app.isMetric = true)
    (hsys : data.sys = some sys) (hmain : data.main = some main)
    (hweather : data.weather = some (w :: ws)) (hwind : data.wind = some wind)
    (ht : main.temp = some t) (hu : main.feels_like = some u) (hs : wind.speed = some s)
    (hv : data.visibility = some v) (_hs0 : 0 ≤ s) (hv0 : 0 ≤ v)
    (_htb : |t| ≤ 10 ^ 15) (_hub : |u| ≤ 10 ^ 15) (_hsb : s ≤ 10 ^ 15) (_hvb : v ≤ 10 ^ 15) :
    ((displayWeatherData data app).2 = none ∧
     (displayWeatherData data app).1.doc.temperature
       = numberToString (some (mathRound (toDouble t))) ++ "°C" ∧
     (displayWeatherData data app).1.doc.feelsLike
       = "Feels like " ++ numberToString (some (mathRound (toDouble u))) ++ "°C" ∧
     (displayWeatherData data app).1.doc.windSpeed
       = numberToString (some (mathRound (jsMul (toDouble s) (toDouble 3.6)))) ++ " km/h" ∧
     (displayWeatherData data app).1.doc.visibility
       = toFixed1 (some (jsDiv (toDouble v) 1000)) ++ " km" ∧
     ∃ n : ℕ, |(n : ℚ) / 10 - jsDiv (toDouble v) 1000| ≤ 1 / 20 ∧ n % 10 < 10 ∧
       (displayWeatherData data app).1.doc.visibility
         = String.mk (natChars (n / 10) ++ ['.', digitChar (n % 10)]) ++ " km") ∧
    ((displayWeatherData sampleData (constructor blankPage)).1.doc.temperature = "22°C" ∧
     (displayWeatherData sampleData (constructor blankPage)).1.doc.feelsLike = "Feels like 20°C" ∧
     (displayWeatherData sampleData (constructor blankPage)).1.doc.windSpeed = "19 km/h" ∧
     (displayWeatherData sampleData (constructor blankPage)).1.doc.visibility = "10.0 km") := by
  have hC : ∀ x : String, x ++ "°" ++ unitLetter true = x ++ "°C" := by
    intro x
    rw [String.append_assoc]
    rfl
  constructor
  · rw [displayWeatherData_complete data app sys main w ws wind hsys hmain hweather hwind]
    simp only [hmetric, ht, hu, hs, hv, mathRoundN, Option.map_some', hC, true_and]
    obtain ⟨n, hn, hd, htxt⟩ := toFixed1_nonneg (jsDiv (toDouble v) 1000)
      (jsDiv_nonneg _ _ (toDouble_nonneg v hv0) (by norm_num))
    exact ⟨n, hn, hd, by rw [htxt]⟩
  · have e1 : numberToString (mathRoundN ((some (21.6 : ℚ)).map toDouble)) = "22" := by
      simp only [Option.map_some', mathRoundN, mathRound_sample_temp]
      rfl
    have e2 : numberToString (mathRoundN ((some (20.4 : ℚ)).map toDouble)) = "20" := by
      simp only [Option.map_some', mathRoundN, mathRound_sample_feels]
      rfl
    have e3 : numberToString (mathRoundN
        ((some (5.2 : ℚ)).map (fun v => jsMul (toDouble v) (toDouble 3.6)))) = "19" := by
      simp only [Option.map_some', mathRoundN, mathRound_sample_wind]
      rfl
    have e4 : toFixed1 ((some (10000 : ℚ)).map (fun v => jsDiv (toDouble v) 1000)) = "10.0" := by
      have r4 : mathRound (10 * |(10 : ℚ)|) = 100 := by norm_num [mathRound]
      have r5 : ¬ ((10 : ℚ) < 0) := by norm_num
      rw [Option.map_some', jsDiv_sample_visibility]
      simp only [toFixed1, r4, r5, if_false]
      rfl
    rw [displayWeatherData_complete sampleData (constructor blankPage) _ _ _ _ _ rfl rfl rfl rfl]
    refine ⟨?_, ?_, ?_, ?_⟩
    · show numberToString (mathRoundN ((some (21.6 : ℚ)).map toDouble)) ++ "°" ++ unitLetter true
        = "22°C"
      rw [e1]
      rfl
    · show "Feels like " ++ numberToString (mathRoundN ((some (20.4 : ℚ)).map toDouble)) ++ "°" ++
        unitLetter true = "Feels like 20°C"
      rw [e2]
      rfl
    · show numberToString (mathRoundN
        ((some (5.2 : ℚ)).map (fun v => jsMul (toDouble v) (toDouble 3.6)))) ++ " km/h" = "19 km/h"
      rw [e3]
      rfl
    · show toFixed1 ((some (10000 : ℚ)).map (fun v => jsDiv (toDouble v) 1000)) ++ " km"
        = "10.0 km"
      rw [e4]
      rfl

/-- Witness of the amended C3 on the sample record. -/
theorem displayWeatherData_metric_texts_witness :
    (displayWeatherData sampleData (constructor blankPage)).2 = none ∧
    (displayWeatherData sampleData (constructor blankPage)).1.doc.temperature
      = numberToString (some (mathRound (toDouble 21.6))) ++ "°C" ∧
    (displayWeatherData sampleData (constructor blankPage)).1.doc.windSpeed = "19 km/h" :=
  have h := displayWeatherData_metric_texts (constructor blankPage) sampleData
    { country := "GB" }
    { temp := some 21.6, feels_like := some 20.4, humidity := "55", pressure := "1013" }
    { main := "Clouds", description := "overcast clouds", icon := "04d" } [] { speed := some 5.2 }
    21.6 20.4 5.2 10000 rfl rfl rfl rfl rfl rfl rfl rfl rfl (by norm_num) (by norm_num)
    (by rw [abs_of_pos (by norm_num)]; norm_num) (by rw [abs_of_pos (by norm_num)]; norm_num)
    (by norm_num) (by norm_num)
  ⟨h.1.1, h.1.2.1, h.2.2.2.1⟩

/-- C4, counterexample: the failures for status 500 and status 503 are one and the same
exception, so no classification of the thrown value can yield `providerError 500` for the
first and `providerError 503` for the second. -/
theorem fetchWeatherData_status_not_carried :
    fetchWeatherData (Except.ok { ok := false, status := 500, json := Except.ok sampleData })
      = Except.error { name := "Error", message := "Failed to fetch weather data" } ∧
    fetchWeatherData (Except.ok { ok := false, status := 503, json := Except.ok sampleData })
      = Except.error { name := "Error", message := "Failed to fetch weather data" } ∧
    ¬ ∃ classify : Except JsError ProviderData → WeatherError,
      classify (fetchWeatherData
        (Except.ok { ok := false, status := 500, json := Except.ok sampleData }))
          = WeatherError.providerError 500 ∧
      classify (fetchWeatherData
        (Except.ok { ok := false, status := 503, json := Except.ok sampleData }))
          = WeatherError.providerError 503 := by
  refine ⟨rfl, rfl, ?_⟩
  rintro ⟨classify, h500, h503⟩
  have heq : fetchWeatherData
      (Except.ok { ok := false, status := 500, json := Except.ok sampleData })
      = fetchWeatherData
        (Except.ok { ok := false, status := 503, json := Except.ok sampleData }) := rfl
  rw [heq, h503] at h500
  exact absurd h500 (by decide)

/-- C4, amended: on a response with `ok` set, `fetchWeatherData` yields what
`response.json()` yields; otherwise it throws an `Error` whose message is
`Location not found` for status 404, `Invalid API key` for status 401 and the fixed text
`Failed to fetch weather data`, without the status, for every other status. -/
theorem fetchWeatherData_classification (response : Response) :
    (response.ok = true → fetchWeatherData (Except.ok response) = response.json) ∧
    (response.ok = false → response.status = 404 →
      fetchWeatherData (Except.ok response)
        = Except.error { name := "Error", message := "Location not found" }) ∧
    (response.ok = false → response.status = 401 →
      fetchWeatherData (Except.ok response)
        = Except.error { name := "Error", message := "Invalid API key" }) ∧
    (response.ok = false → response.status ≠ 404 → response.status ≠ 401 →
      fetchWeatherData (Except.ok response)
        = Except.error { name := "Error", message := "Failed to fetch weather data" }) := by
  refine ⟨?_, ?_, ?_, ?_⟩
  · intro h
    simp [fetchWeatherData, h]
  · intro h h404
    simp [fetchWeatherData, h, h404]
  · intro h h401
    simp [fetchWeatherData, h, h401]
  · intro h h404 h401
    simp [fetchWeatherData, h, h404, h401]

/-- Witness of the amended C4: a success, a 404, a 401 and a 500. -/
theorem fetchWeatherData_classification_witness :
    fetchWeatherData sampleReply = Except.ok sampleData ∧
    fetchWeatherData (Except.ok { ok := false, status := 404, json := Except.ok sampleData })
      = Except.error { name := "Error", message := "Location not found" } ∧
    fetchWeatherData (Except.ok { ok := false, status := 401, json := Except.ok sampleData })
      = Except.error { name := "Error", message := "Invalid API key" } ∧
    fetchWeatherData (Except.ok { ok := false, status := 500, json := Except.ok sampleData })
      = Except.error { name := "Error", message := "Failed to fetch weather data" } :=
  ⟨(fetchWeatherData_classification
      { ok := true, status := 200, json := Except.ok sampleData }).1 rfl,
   (fetchWeatherData_classification
      { ok := false, status := 404, json := Except.ok sampleData }).2.1 rfl rfl,
   (fetchWeatherData_classification
      { ok := false, status := 401, json := Except.ok sampleData }).2.2.1 rfl rfl,
   (fetchWeatherData_classification
      { ok := false, status := 500, json := Except.ok sampleData }).2.2.2 rfl (by decide)
      (by decide)⟩

/-- C5, evaluation at the failing inputs: for the category names `constructor` and `toString`
the property read on `iconMap` finds the member inherited from `Object.prototype`, which is
truthy, so the icon chosen is that member and not the fallback glyph. -/
theorem chosenIcon_inherited_member :
    chosenIcon "constructor" = JsValue.inherited "constructor" ∧
    chosenIcon "toString" = JsValue.inherited "toString" ∧
    iconMapOwn "constructor" = none ∧ iconMapOwn "toString" = none ∧
    chosenIcon "constructor" ≠ JsValue.string "🌤️" ∧
    chosenIcon "toString" ≠ JsValue.string "🌤️" ∧
    (updateWeatherIcon "constructor" "01d" (constructor blankPage)).doc.weatherIcon
      = some (JsValue.inherited "constructor") := by
  decide

/-- The part of C5 the script does satisfy: the fifteen table entries, and the fallback glyph
for every string that is neither a table key nor a property name of `Object.prototype`
(the empty string and `clear` among them). -/
theorem chosenIcon_table_and_fallback :
    (chosenIcon "Clear" = JsValue.string "☀️" ∧ chosenIcon "Clouds" = JsValue.string "☁️" ∧
     chosenIcon "Rain" = JsValue.string "🌧️" ∧ chosenIcon "Drizzle" = JsValue.string "🌦️" ∧
     chosenIcon "Thunderstorm" = JsValue.string "⛈️" ∧ chosenIcon "Snow" = JsValue.string "❄️" ∧
     chosenIcon "Mist" = JsValue.string "🌫️" ∧ chosenIcon "Smoke" = JsValue.string "🌫️" ∧
     chosenIcon "Haze" = JsValue.string "🌫️" ∧ chosenIcon "Dust" = JsValue.string "🌫️" ∧
     chosenIcon "Fog" = JsValue.string "🌫️" ∧ chosenIcon "Sand" = JsValue.string "🌫️" ∧
     chosenIcon "Ash" = JsValue.string "🌫️" ∧ chosenIcon "Squall" = JsValue.string "💨" ∧
     chosenIcon "Tornado" = JsValue.string "🌪️" ∧
     chosenIcon "" = JsValue.string "🌤️" ∧ chosenIcon "clear" = JsValue.string "🌤️") ∧
    ∀ s : String, iconMapOwn s = none → s ∉ objectPrototypeKeys →
      chosenIcon s = JsValue.string "🌤️" := by
  constructor
  · decide
  · intro s hown hproto
    simp [chosenIcon, iconMapGet, hown, hproto, jsOr]

/-- C6, counterexample: on the freshly constructed application a whitespace-only query makes
`handleSearch` open the error modal, so the request state read off the page is `error`, not
`idle`. -/
theorem handleSearch_blank_opens_modal :
    jsTrim "   " = "" ∧
    (handleSearchSubmit (freshWithInput "   ")).contactsProvider = false ∧
    (handleSearchSubmit (freshWithInput "   ")).app.doc.modalShown = true ∧
    requestState (freshWithInput "   ").doc = RequestState.idle ∧
    requestState (handleSearchSubmit (freshWithInput "   ")).app.doc = RequestState.error := by
  decide

/-- C6, amended: when the trimmed input is empty, `handleSearch` returns without invoking
`fetchWeatherData`, leaves the loading indicator and the weather display as they were, and
opens the error modal; when the loading indicator was not visible before the call, the
request state read off the page after it is `error`. -/
theorem handleSearch_blank (app : App) (hblank : jsTrim app.doc.locationInput = "") :
    handleSearchSubmit app = SearchStep.finished (showModal app) ∧
    (handleSearchSubmit app).contactsProvider = false ∧
    (handleSearchSubmit app).app.doc.loadingShown = app.doc.loadingShown ∧
    (handleSearchSubmit app).app.doc.weatherDisplayShown = app.doc.weatherDisplayShown ∧
    (handleSearchSubmit app).app.doc.modalShown = true ∧
    (∀ reply, handleSearch app reply = showModal app) ∧
    (app.doc.loadingShown = false →
      requestState (handleSearchSubmit app).app.doc = RequestState.error) := by
  have h : handleSearchSubmit app = SearchStep.finished (showModal app) := by
    simp [handleSearchSubmit, hblank, showError]
  refine ⟨h, ?_, ?_, ?_, ?_, ?_, ?_⟩
  · rw [h]; rfl
  · rw [h]; rfl
  · rw [h]; rfl
  · rw [h]; rfl
  · intro reply
    simp [handleSearch, h]
  · intro hload
    rw [h]
    simp [SearchStep.app, requestState, showModal, hload]

/-- Witness of the amended C6 on a whitespace-only query. -/
theorem handleSearch_blank_witness :
    handleSearchSubmit (freshWithInput " \t ") = SearchStep.finished (showModal (freshWithInput " \t ")) ∧
    (handleSearchSubmit (freshWithInput " \t ")).contactsProvider = false ∧
    requestState (handleSearchSubmit (freshWithInput " \t ")).app.doc = RequestState.error :=
  have h := handleSearch_blank (freshWithInput " \t ") (by decide)
  ⟨h.1, h.2.1, h.2.2.2.2.2.2 rfl⟩

/-- C7, counterexample: with no stored preference, `localStorage` holds no `theme` entry after
construction and holds `light` after two toggles. -/
theorem toggleTheme_twice_absent_preference :
    (constructor blankPage).doc.storedTheme = none ∧
    (toggleTheme (toggleTheme (constructor blankPage))).doc.storedTheme = some "light" ∧
    (toggleTheme (toggleTheme (constructor blankPage))).doc.storedTheme
      ≠ (constructor blankPage).doc.storedTheme := by
  decide

theorem updateThemeToggle_fields (app : App) :
    (updateThemeToggle app).currentTheme = app.currentTheme ∧
    (updateThemeToggle app).doc.dataTheme = app.doc.dataTheme ∧
    (updateThemeToggle app).doc.storedTheme = app.doc.storedTheme := by
  unfold updateThemeToggle
  split <;> exact ⟨rfl, rfl, rfl⟩

theorem toggleTheme_fields (app : App) :
    (toggleTheme app).currentTheme = (if app.currentTheme = "light" then "dark" else "light") ∧
    (toggleTheme app).doc.dataTheme = some (toggleTheme app).currentTheme ∧
    (toggleTheme app).doc.storedTheme = some (toggleTheme app).currentTheme := by
  obtain ⟨h1, h2, h3⟩ := updateThemeToggle_fields
    { app with
      currentTheme := if app.currentTheme = "light" then "dark" else "light"
      doc := { app.doc with
        dataTheme := some (if app.currentTheme = "light" then "dark" else "light")
        storedTheme := some (if app.currentTheme = "light" then "dark" else "light") } }
  refine ⟨h1, ?_, ?_⟩
  · show (updateThemeToggle _).doc.dataTheme = some (updateThemeToggle _).currentTheme
    rw [h2, h1]
  · show (updateThemeToggle _).doc.storedTheme = some (updateThemeToggle _).currentTheme
    rw [h3, h1]

/-- C7, amended: starting from construction with the stored preference absent, `light` or
`dark`, two applications of `toggleTheme` return the in-memory theme and the `data-theme`
attribute to their values before the toggles and leave the stored value equal to the theme
in force before the toggles (the stored value itself when one was present, `light` when it was
absent); after each single toggle the stored value and the attribute equal the in-memory
theme. -/
theorem toggleTheme_twice (page : Document)
    (hpref : page.storedTheme = none ∨ page.storedTheme = some "light" ∨
      page.storedTheme = some "dark") :
    (toggleTheme (toggleTheme (constructor page))).currentTheme = (constructor page).currentTheme ∧
    (toggleTheme (toggleTheme (constructor page))).doc.dataTheme
      = (constructor page).doc.dataTheme ∧
    (toggleTheme (toggleTheme (constructor page))).doc.storedTheme
      = some (constructor page).currentTheme ∧
    (page.storedTheme ≠ none →
      (toggleTheme (toggleTheme (constructor page))).doc.storedTheme
        = (constructor page).doc.storedTheme) ∧
    (toggleTheme (constructor page)).doc.storedTheme
      = some (toggleTheme (constructor page)).currentTheme ∧
    (toggleTheme (constructor page)).doc.dataTheme
      = some (toggleTheme (constructor page)).currentTheme ∧
    (toggleTheme (toggleTheme (constructor page))).doc.dataTheme
      = some (toggleTheme (toggleTheme (constructor page))).currentTheme ∧
    (toggleTheme (toggleTheme (constructor page))).doc.storedTheme
      = some (toggleTheme (toggleTheme (constructor page))).currentTheme := by
  have hc : ((constructor page).currentTheme = "light" ∨ (constructor page).currentTheme = "dark")
      ∧ (constructor page).doc.dataTheme = some (constructor page).currentTheme
      ∧ (constructor page).doc.storedTheme = page.storedTheme
      ∧ (page.storedTheme ≠ none → page.storedTheme = some (constructor page).currentTheme) := by
    unfold constructor initializeTheme
    rcases hpref with h | h | h <;>
      simp [h, (updateThemeToggle_fields _).1, (updateThemeToggle_fields _).2.1,
        (updateThemeToggle_fields _).2.2]
  obtain ⟨hcur, hattr, hstored, hpresent⟩ := hc
  obtain ⟨t1, a1, s1⟩ := toggleTheme_fields (constructor page)
  obtain ⟨t2, a2, s2⟩ := toggleTheme_fields (toggleTheme (constructor page))
  have hback : (toggleTheme (toggleTheme (constructor page))).currentTheme
      = (constructor page).currentTheme := by
    rw [t2, t1]
    rcases hcur with h | h <;> simp [h]
  refine ⟨hback, ?_, ?_, ?_, s1, a1, a2, s2⟩
  · rw [a2, hback, hattr]
  · rw [s2, hback]
  · intro hne
    rw [s2, hback, hstored, hpresent hne]

/-- Witness of the amended C7 with the preference `dark` stored. -/
theorem toggleTheme_twice_witness :
    (toggleTheme (toggleTheme (constructor { blankPage with storedTheme := some "dark" }))).currentTheme
      = "dark" ∧
    (toggleTheme (toggleTheme (constructor { blankPage with storedTheme := some "dark" }))).doc.storedTheme
      = some "dark" :=
  have h := toggleTheme_twice { blankPage with storedTheme := some "dark" } (Or.inr (Or.inr rfl))
  ⟨h.1, h.2.2.1⟩

/-- C8, evaluation at the failing input: with `API_KEY` the empty string, as the constructor
sets it, a search for `London` passes the credential check, shows the loading indicator,
opens no modal and issues the request with an empty `appid`. -/
theorem handleSearch_empty_key_contacts_provider :
    (constructor blankPage).API_KEY = "" ∧
    handleSearchSubmit (freshWithInput "London")
      = SearchStep.awaiting (showLoading (freshWithInput "London"))
          { location := "London", appid := "", units := "metric" } ∧
    (handleSearchSubmit (freshWithInput "London")).contactsProvider = true ∧
    (handleSearchSubmit (freshWithInput "London")).app.doc.loadingShown = true ∧
    (handleSearchSubmit (freshWithInput "London")).app.doc.modalShown = false := by
  refine ⟨rfl, ?_, ?_, ?_, ?_⟩
  · rfl
  · decide
  · decide
  · decide

theorem handleSearchSubmit_proceeds (app : App) (hquery : jsTrim app.doc.locationInput ≠ "")
    (hkey : app.API_KEY ≠ "your_api_key_here") :
    handleSearchSubmit app = SearchStep.awaiting (showLoading app)
      (fetchWeatherDataRequest (showLoading app) (jsTrim app.doc.locationInput)) := by
  simp [handleSearchSubmit, hquery, hkey]

theorem handleSearchSettle_loading (app : App) (reply : FetchReply) :
    (handleSearchSettle app reply).doc.loadingShown = false := by
  unfold handleSearchSettle
  split
  · rfl
  · split <;> rfl

theorem handleSearchSettle_rendered (app app' : App) (reply : FetchReply) (data : ProviderData)
    (hdata : fetchWeatherData reply = Except.ok data)
    (hd : displayWeatherData data app = (app', none)) :
    handleSearchSettle app reply = hideLoading app' := by
  simp [handleSearchSettle, hdata, hd]

theorem handleSearchSettle_render_throws (app app' : App) (reply : FetchReply)
    (data : ProviderData) (e : JsError) (hdata : fetchWeatherData reply = Except.ok data)
    (hd : displayWeatherData data app = (app', some e)) :
    handleSearchSettle app reply = showModal (hideLoading app') := by
  simp [handleSearchSettle, hdata, hd]

theorem handleSearchSettle_fetch_throws (app : App) (reply : FetchReply) (e : JsError)
    (hdata : fetchWeatherData reply = Except.error e) :
    handleSearchSettle app reply = showModal (hideLoading app) := by
  simp [handleSearchSettle, hdata]

/-- C9, counterexample: two searches overlap.  `London` and then `Nowhere` are submitted, the
first reply is rendered and the second is a 404: the failure of the second search ends with
the loading indicator hidden, the error modal shown and the weather display shown, not
hidden. -/
theorem overlapping_search_failure_leaves_display_shown :
    (run { app := deployed, pending := [] }
      [Event.submitSearch "London", Event.submitSearch "Nowhere"]).pending
      = [{ location := "London", appid := "0123456789abcdef", units := "metric" },
         { location := "Nowhere", appid := "0123456789abcdef", units := "metric" }] ∧
    (run { app := deployed, pending := [] }
      [Event.submitSearch "London", Event.submitSearch "Nowhere"]).app.doc.weatherDisplayShown
      = false ∧
    fetchWeatherData notFoundReply
      = Except.error { name := "Error", message := "Location not found" } ∧
    (run { app := deployed, pending := [] }
      [Event.submitSearch "London", Event.submitSearch "Nowhere",
        Event.fetchResolves sampleReply, Event.fetchResolves notFoundReply]).app.doc.loadingShown
      = false ∧
    (run { app := deployed, pending := [] }
      [Event.submitSearch "London", Event.submitSearch "Nowhere",
        Event.fetchResolves sampleReply, Event.fetchResolves notFoundReply]).app.doc.modalShown
      = true ∧
    (run { app := deployed, pending := [] }
      [Event.submitSearch "London", Event.submitSearch "Nowhere",
        Event.fetchResolves sampleReply,
        Event.fetchResolves notFoundReply]).app.doc.weatherDisplayShown
      = true := by
  refine ⟨?_, ?_, ?_, ?_, ?_, ?_⟩ <;> rfl

/-- C9, amended: for a non-blank query that passes the credential check, `handleSearch` shows
the loading indicator and hides the weather display on submission.  When the reply arrives,
in whatever state `later` the page then is: if the fetch succeeds and the reply is rendered,
the loading indicator is hidden, the weather display is shown and the error modal is left as
it was; if the fetch or the rendering fails, the loading indicator is hidden, the error modal
is shown and the weather display is left as it was when the reply arrived, so that it stays
hidden when nothing ran since the submission.  The loading indicator is never left visible. -/
theorem handleSearch_request_states (app later : App) (reply : FetchReply)
    (hquery : jsTrim app.doc.locationInput ≠ "") (hkey : app.API_KEY ≠ "your_api_key_here") :
    ((handleSearchSubmit app).contactsProvider = true ∧
     (handleSearchSubmit app).app.doc.loadingShown = true ∧
     (handleSearchSubmit app).app.doc.weatherDisplayShown = false ∧
     (handleSearchSubmit app).app.doc.modalShown = app.doc.modalShown) ∧
    (∀ data, fetchWeatherData reply = Except.ok data →
      (displayWeatherData data later).2 = none →
      handleSearchSettle later reply = hideLoading (displayWeatherData data later).1 ∧
      (handleSearchSettle later reply).doc.loadingShown = false ∧
      (handleSearchSettle later reply).doc.weatherDisplayShown = true ∧
      (handleSearchSettle later reply).doc.modalShown = later.doc.modalShown) ∧
    (∀ e, fetchWeatherData reply = Except.error e →
      handleSearchSettle later reply = showModal (hideLoading later) ∧
      (handleSearchSettle later reply).doc.loadingShown = false ∧
      (handleSearchSettle later reply).doc.weatherDisplayShown = later.doc.weatherDisplayShown ∧
      (handleSearchSettle later reply).doc.modalShown = true) ∧
    (∀ data, fetchWeatherData reply = Except.ok data →
      (displayWeatherData data later).2 ≠ none →
      handleSearchSettle later reply
        = showModal (hideLoading (displayWeatherData data later).1) ∧
      (handleSearchSettle later reply).doc.loadingShown = false ∧
      (handleSearchSettle later reply).doc.weatherDisplayShown = later.doc.weatherDisplayShown ∧
      (handleSearchSettle later reply).doc.modalShown = true) ∧
    (handleSearchSettle later reply).doc.loadingShown = false ∧
    handleSearch app reply = handleSearchSettle (handleSearchSubmit app).app reply ∧
    (∀ data, fetchWeatherData reply = Except.ok data →
      (displayWeatherData data (handleSearchSubmit app).app).2 = none →
      (handleSearch app reply).doc.loadingShown = false ∧
      (handleSearch app reply).doc.weatherDisplayShown = true ∧
      (handleSearch app reply).doc.modalShown = app.doc.modalShown) ∧
    ((∃ e, fetchWeatherData reply = Except.error e) ∨
      (∃ data, fetchWeatherData reply = Except.ok data ∧
        (displayWeatherData data (handleSearchSubmit app).app).2 ≠ none) →
      (handleSearch app reply).doc.loadingShown = false ∧
      (handleSearch app reply).doc.weatherDisplayShown = false ∧
      (handleSearch app reply).doc.modalShown = true) := by
  have hsub := handleSearchSubmit_proceeds app hquery hkey
  have happ : (handleSearchSubmit app).app = showLoading app := by rw [hsub]; rfl
  have hrun : handleSearch app reply = handleSearchSettle (showLoading app) reply := by
    simp [handleSearch, hsub]
  have hok : ∀ (st : App) (data : ProviderData), fetchWeatherData reply = Except.ok data →
      (displayWeatherData data st).2 = none →
      handleSearchSettle st reply = hideLoading (displayWeatherData data st).1 ∧
      (handleSearchSettle st reply).doc.loadingShown = false ∧
      (handleSearchSettle st reply).doc.weatherDisplayShown = true ∧
      (handleSearchSettle st reply).doc.modalShown = st.doc.modalShown := by
    intro st data hdata hnone
    obtain ⟨_, hmodal, _, hshow, _⟩ := displayWeatherData_visibility data st
    have hs := hshow hnone
    rcases hd : displayWeatherData data st with ⟨app', err⟩
    rw [hd] at hnone hs hmodal
    simp only at hnone hs hmodal
    subst hnone
    rw [handleSearchSettle_rendered _ _ _ _ hdata hd]
    exact ⟨rfl, rfl, hs, hmodal⟩
  have hfail : ∀ (st : App) (e : JsError), fetchWeatherData reply = Except.error e →
      handleSearchSettle st reply = showModal (hideLoading st) ∧
      (handleSearchSettle st reply).doc.loadingShown = false ∧
      (handleSearchSettle st reply).doc.weatherDisplayShown = st.doc.weatherDisplayShown ∧
      (handleSearchSettle st reply).doc.modalShown = true := by
    intro st e he
    rw [handleSearchSettle_fetch_throws _ _ _ he]
    exact ⟨rfl, rfl, rfl, rfl⟩
  have hthrow : ∀ (st : App) (data : ProviderData), fetchWeatherData reply = Except.ok data →
      (displayWeatherData data st).2 ≠ none →
      handleSearchSettle st reply = showModal (hideLoading (displayWeatherData data st).1) ∧
      (handleSearchSettle st reply).doc.loadingShown = false ∧
      (handleSearchSettle st reply).doc.weatherDisplayShown = st.doc.weatherDisplayShown ∧
      (handleSearchSettle st reply).doc.modalShown = true := by
    intro st data hdata hsome
    obtain ⟨_, _, _, _, hkeep⟩ := displayWeatherData_visibility data st
    have hs := hkeep hsome
    rcases hd : displayWeatherData data st with ⟨app', err⟩
    rw [hd] at hsome hs
    simp only at hsome hs
    rcases err with _ | e
    · exact absurd rfl hsome
    · rw [handleSearchSettle_render_throws _ _ _ _ _ hdata hd]
      exact ⟨rfl, rfl, hs, rfl⟩
  refine ⟨?_, hok later, hfail later, hthrow later, handleSearchSettle_loading _ _, ?_, ?_, ?_⟩
  · rw [hsub]
    exact ⟨rfl, rfl, rfl, rfl⟩
  · rw [happ, hrun]
  · intro data hdata hnone
    rw [happ] at hnone
    rw [hrun]
    obtain ⟨_, h1, h2, h3⟩ := hok (showLoading app) data hdata hnone
    exact ⟨h1, h2, h3⟩
  · rintro (⟨e, he⟩ | ⟨data, hdata, hsome⟩)
    · rw [hrun]
      obtain ⟨_, h1, h2, h3⟩ := hfail (showLoading app) e he
      exact ⟨h1, h2, h3⟩
    · rw [happ] at hsome
      rw [hrun]
      obtain ⟨_, h1, h2, h3⟩ := hthrow (showLoading app) data hdata hsome
      exact ⟨h1, h2, h3⟩

/-- Witness of the amended C9: a search for `London` answered by the sample reply ends with
the loading indicator hidden, the weather display shown and no modal; a 404 arriving on a page
that shows a forecast leaves the forecast shown and opens the modal. -/
theorem handleSearch_request_states_witness :
    (handleSearchSubmit (freshWithInput "London")).app.doc.loadingShown = true ∧
    ((handleSearch (freshWithInput "London") sampleReply).doc.loadingShown = false ∧
     (handleSearch (freshWithInput "London") sampleReply).doc.weatherDisplayShown = true ∧
     (handleSearch (freshWithInput "London") sampleReply).doc.modalShown = false) ∧
    (handleSearchSettle shown22 sampleReply).doc.loadingShown = false :=
  have h := handleSearch_request_states (freshWithInput "London") shown22 sampleReply
    (by decide) (by decide)
  ⟨h.1.2.1, h.2.2.2.2.2.2.1 sampleData rfl (by simp [displayWeatherData, sampleData]),
    h.2.2.2.2.1⟩

/-- C10, evaluation at the failing sequence: a search submitted in Metric mode sends
`units=metric`; the unit toggle is clicked while the request is outstanding; when the reply
(20, in degrees Celsius) is rendered the display is shown with the text `20°F`, although no
conversion has been applied to the number. -/
theorem unit_suffix_mismatch_after_pending_toggle :
    (run { app := deployed, pending := [] } [Event.submitSearch "London"]).pending
      = [{ location := "London", appid := "0123456789abcdef", units := "metric" }] ∧
    (run { app := deployed, pending := [] }
      [Event.submitSearch "London", Event.toggleUnit]).app.doc.weatherDisplayShown = false ∧
    (run { app := deployed, pending := [] }
      [Event.submitSearch "London", Event.toggleUnit,
        Event.fetchResolves metricReply20]).app.doc.weatherDisplayShown = true ∧
    (run { app := deployed, pending := [] }
      [Event.submitSearch "London", Event.toggleUnit,
        Event.fetchResolves metricReply20]).app.doc.temperature = "20°F" ∧
    (run { app := deployed, pending := [] }
      [Event.submitSearch "London", Event.toggleUnit,
        Event.fetchResolves metricReply20]).app.doc.feelsLike = "Feels like 20°F" := by
  have hsub : run { app := deployed, pending := [] } [Event.submitSearch "London"]
      = { app := showLoading { deployed with doc := { deployed.doc with locationInput := "London" } }
          pending := [{ location := "London", appid := "0123456789abcdef", units := "metric" }] } := by
    rfl
  have htog : run { app := deployed, pending := [] } [Event.submitSearch "London", Event.toggleUnit]
      = { app := toggleTemperatureUnit
            (showLoading { deployed with doc := { deployed.doc with locationInput := "London" } })
          pending := [{ location := "London", appid := "0123456789abcdef", units := "metric" }] } := by
    rfl
  have hfin : run { app := deployed, pending := [] }
      [Event.submitSearch "London", Event.toggleUnit, Event.fetchResolves metricReply20]
      = { app := handleSearchSettle (toggleTemperatureUnit
            (showLoading { deployed with doc := { deployed.doc with locationInput := "London" } }))
            metricReply20
          pending := [] } := by
    rfl
  have r : mathRound (toDouble 20) = 20 := by
    rw [toDouble_twenty]
    norm_num [mathRound]
  have hd := displayWeatherData_complete metricData20 (toggleTemperatureUnit
    (showLoading { deployed with doc := { deployed.doc with locationInput := "London" } }))
    _ _ _ _ _ rfl rfl rfl rfl
  have hset := handleSearchSettle_rendered _ _ metricReply20 metricData20 rfl hd
  have htemp : numberToString (mathRoundN ((some (20 : ℚ)).map toDouble)) = "20" := by
    simp only [Option.map_some', mathRoundN, r]
    rfl
  refine ⟨rfl, rfl, ?_, ?_, ?_⟩
  · rw [hfin, hset]
    rfl
  · rw [hfin, hset]
    show numberToString (mathRoundN ((some (20 : ℚ)).map toDouble)) ++ "°" ++ unitLetter false
      = "20°F"
    rw [htemp]
    rfl
  · rw [hfin, hset]
    show "Feels like " ++ numberToString (mathRoundN ((some (20 : ℚ)).map toDouble)) ++ "°" ++
      unitLetter false = "Feels like 20°F"
    rw [htemp]
    rfl

end WeatherApp
